import Mathlib

/-!
Verification of the playlist playback orchestrator of the
loop-video-canvas-hub repository.

The repository contains several successive iterations of the same React
`VideoPlayer` component (files `part_000` .. `part_003`) plus the URL
helpers in `src/services/videoService.ts`.  Each iteration is embedded
below in its own namespace (`Part000`, `Part001`, `Part002`, `Part003`),
translated directly from the TypeScript source:

* React `useState` cells become fields of a `PlayerState` structure;
* `videos.length` becomes an explicit parameter `N`;
* a `window.message` payload (`event.data`, an arbitrary, possibly
  cross-origin JavaScript value) becomes the sum type `JsData`;
* a handler without a `try`/`catch` that performs a property access on
  `null` is modelled as returning `Except.error JsError.typeError`
  (in JavaScript `typeof null === 'object'`, so `event.data.event`
  throws a `TypeError` when `event.data` is `null`).

The generation-stamped orchestrator of spec sections 4.3 and 4.5 is not
present under `src/`; it is modelled from the spec in namespace
`SpecOrch` (see the doc comments there).
-/

/-- Source kind of a playlist item (`src/types`, `VideoType`). -/
inductive VideoType where
  | YOUTUBE
  | CANVA
deriving DecidableEq

/-- A playlist item (`src/types`, `Video`).  Only the fields the
orchestrator reads are kept. -/
structure Video where
  title : List Char
  url : List Char
  type : VideoType
deriving DecidableEq

/-- The thrown-exception marker for a handler without a `try`/`catch`. -/
inductive JsError where
  | typeError
deriving DecidableEq

/-- A `window.message` payload (`event.data`).  `jnull` is the JavaScript
`null` (for which `typeof` still answers `'object'`); `jprim` is any value
whose `typeof` is not `'object'` (string, number, boolean, undefined,
function); `jobj` is a non-null object with optional `event` and `info`
fields (a missing field reads as `undefined`, which compares unequal to
every string and number). -/
inductive JsData where
  | jnull
  | jprim
  | jobj (event : Option (List Char)) (info : Option Int)
deriving DecidableEq

/-- The `'onStateChange'` event-name string compared against by every
iteration's message handler. -/
def onStateChange : List Char := "onStateChange".toList

deriving instance DecidableEq for Except

namespace Part000

/-- The `useState` cells of the `part_000` iteration: `currentIndex` and
`isPlaying` (this iteration has no loop toggle). -/
structure PlayerState where
  currentIndex : Nat
  isPlaying : Bool
deriving DecidableEq

/-- `part_000` line 19: `const currentVideo = videos[currentIndex]`
(JavaScript indexing out of range yields `undefined`). -/
def currentVideo (videos : List Video) (currentIndex : Nat) : Option Video :=
  videos.get? currentIndex

/-- `part_000` lines 22-24: `setCurrentIndex((prevIndex) => (prevIndex + 1) %
videos.length)`.  (With `videos.length = 0` the JavaScript expression is
`NaN`; the component never calls this then — the effect that can reach it
returns early at line 27 — and every theorem below uses `N ≥ 2`.) -/
def goToNextVideo (N : Nat) (s : PlayerState) : PlayerState :=
  { s with currentIndex := (s.currentIndex + 1) % N }

/-- `part_000` lines 32-39: on video end, advance only `if (isPlaying)`
(the 500 ms `setTimeout` merely delays the same transition). -/
def handleVideoEnd (N : Nat) (s : PlayerState) : PlayerState :=
  if s.isPlaying then goToNextVideo N s else s

/-- `part_000` lines 42-51: the `message` listener.  No `try`/`catch`: for
a `null` payload, `typeof event.data === 'object'` passes and
`event.data.event` throws a `TypeError` that escapes the handler. -/
def handleMessage (N : Nat) (s : PlayerState) : JsData → Except JsError PlayerState
  | .jnull => .error .typeError
  | .jprim => .ok s
  | .jobj e i =>
      if e = some onStateChange ∧ i = some 0 then .ok (handleVideoEnd N s)
      else .ok s

end Part000

namespace Part001

/-- The `useState` cells of the `part_001` iteration. -/
structure PlayerState where
  currentIndex : Nat
  isPlaying : Bool
  loopEnabled : Bool
deriving DecidableEq

/-- `part_001` lines 34-47: no-op when `videos.length <= 1`; hold when
looping is disabled at the last index; otherwise `(prevIndex + 1) %
videos.length`. -/
def goToNextVideo (N : Nat) (s : PlayerState) : PlayerState :=
  if N ≤ 1 then s
  else if s.loopEnabled = false ∧ N - 1 ≤ s.currentIndex then s
  else { s with currentIndex := (s.currentIndex + 1) % N }

/-- `part_001` lines 61-74: only `if (isPlaying)`; inside the delayed
callback, return (changing nothing) at the loop-off boundary, else
`goToNextVideo()`.  Note this iteration does not touch `isPlaying`. -/
def handleVideoEnd (N : Nat) (s : PlayerState) : PlayerState :=
  if s.isPlaying then
    if s.loopEnabled = false ∧ N - 1 ≤ s.currentIndex then s
    else goToNextVideo N s
  else s

/-- `part_001` lines 77-98: the `message` listener, wrapped in
`try`/`catch`; recognizes `info === 0` (ended) and `info === -1` (error).
A `null` payload throws inside the `try` and is caught (state unchanged). -/
def handleMessage (N : Nat) (s : PlayerState) : JsData → Except JsError PlayerState
  | .jnull => .ok s
  | .jprim => .ok s
  | .jobj e i =>
      if e = some onStateChange then
        if i = some 0 then .ok (handleVideoEnd N s)
        else if i = some (-1) then .ok (goToNextVideo N s)
        else .ok s
      else .ok s

end Part001

namespace Part003

/-- The `useState` cells of the `part_003` iteration. -/
structure PlayerState where
  currentIndex : Nat
  isPlaying : Bool
  loopEnabled : Bool
deriving DecidableEq

/-- `part_003` line 21: `const currentVideo = videos[currentIndex]`. -/
def currentVideo (videos : List Video) (currentIndex : Nat) : Option Video :=
  videos.get? currentIndex

/-- `part_003` line 222: the component returns the `No videos to display`
placeholder — rendering none of the control buttons — whenever
`currentVideo` is undefined. -/
def rendersControls (videos : List Video) (currentIndex : Nat) : Bool :=
  (currentVideo videos currentIndex).isSome

/-- `part_003` lines 52-60: no-op when `videos.length <= 1`; otherwise
`prevIndex <= 0 ? videos.length - 1 : prevIndex - 1`. -/
def goToPreviousVideo (N : Nat) (s : PlayerState) : PlayerState :=
  if N ≤ 1 then s
  else { s with currentIndex := if s.currentIndex ≤ 0 then N - 1 else s.currentIndex - 1 }

/-- `part_003` lines 63-76: no-op when `videos.length <= 1`; hold when
looping is disabled at the last index (`prevIndex >= videos.length - 1`);
otherwise `(prevIndex + 1) % videos.length`. -/
def goToNextVideo (N : Nat) (s : PlayerState) : PlayerState :=
  if N ≤ 1 then s
  else if s.loopEnabled = false ∧ N - 1 ≤ s.currentIndex then s
  else { s with currentIndex := (s.currentIndex + 1) % N }

/-- `part_003` lines 79-82: `setLoopEnabled(!loopEnabled)`. -/
def toggleLooping (s : PlayerState) : PlayerState :=
  { s with loopEnabled := !s.loopEnabled }

/-- `part_003` lines 218-220: `setIsPlaying(!isPlaying)`. -/
def togglePlayPause (s : PlayerState) : PlayerState :=
  { s with isPlaying := !s.isPlaying }

/-- `part_003` lines 91-104: the delayed end-of-video transition.  There
is no `isPlaying` guard in this iteration.  At the loop-off boundary it
sets `isPlaying` to `false` and holds; otherwise `goToNextVideo()` then
`setIsPlaying(true)`. -/
def handleVideoEnd (N : Nat) (s : PlayerState) : PlayerState :=
  if s.loopEnabled = false ∧ N - 1 ≤ s.currentIndex then
    { s with isPlaying := false }
  else
    { goToNextVideo N s with isPlaying := true }

/-- `part_003` lines 107-136: the `message` listener, wrapped in
`try`/`catch`; recognizes `info` codes `0` (ended), `-1` (error),
`1` (playing), `2` (paused).  A `null` payload throws inside the `try`
and is caught (state unchanged). -/
def handleMessage (N : Nat) (s : PlayerState) : JsData → Except JsError PlayerState
  | .jnull => .ok s
  | .jprim => .ok s
  | .jobj e i =>
      if e = some onStateChange then
        if i = some 0 then .ok (handleVideoEnd N s)
        else if i = some (-1) then .ok (goToNextVideo N s)
        else if i = some 1 then .ok { s with isPlaying := true }
        else if i = some 2 then .ok { s with isPlaying := false }
        else .ok s
      else .ok s

end Part003

namespace Part002

/-- `part_002` lines 26-29: per-kind time limits in seconds
(`0` for YouTube, `30` for Canva). -/
def VIDEO_TIME_LIMITS : VideoType → Int
  | .YOUTUBE => 0
  | .CANVA => 30

/-- `part_002` line 105: `VIDEO_TIME_LIMITS[currentVideo.type] || 30`.
JavaScript `||` replaces a falsy left operand, so the YouTube limit `0`
falls back to `30`. -/
def timeLimit (ty : VideoType) : Int :=
  if VIDEO_TIME_LIMITS ty = 0 then 30 else VIDEO_TIME_LIMITS ty

/-- The timer-resource state of the `part_002` iteration.  `live` holds
the ids of intervals armed by `setInterval` and not yet cleared; `ref`
is `videoTimerRef.current`; `fired` records the ids whose countdown
reached zero (each such expiry invoked `handleVideoEnd`, i.e. emitted one
`ENDED`); `nextId` is the next fresh id the platform will hand out.
`remaining` is the `remainingTime` state cell. -/
structure TimerSys where
  live : List Nat
  ref : Option Nat
  fired : List Nat
  nextId : Nat
  remaining : Int
deriving DecidableEq

/-- `clearTimeout(videoTimerRef.current)`: clears the referenced interval
if it is still armed; a cleared or stale id is a harmless no-op.  (Browser
`clearTimeout` and `clearInterval` share one id pool, which is why the
source clears intervals with `clearTimeout`.) -/
def clearRef (t : TimerSys) : TimerSys :=
  match t.ref with
  | none => t
  | some id => { t with live := t.live.erase id }

/-- `part_002` lines 98-128, `startVideoTimer`: first clear any existing
timer (lines 100-102), set `remainingTime` to the limit (line 106), then —
for Canva, or whenever the limit is positive (line 109) — arm a fresh
interval and store its id in the ref. -/
def startVideoTimer (ty : VideoType) (t : TimerSys) : TimerSys :=
  if ty = .CANVA ∨ 0 < timeLimit ty then
    { clearRef t with
        live := ((clearRef t).nextId :: (clearRef t).live),
        ref := some (clearRef t).nextId,
        nextId := (clearRef t).nextId + 1,
        remaining := timeLimit ty }
  else { clearRef t with remaining := timeLimit ty }

/-- `part_002` lines 135-140 (effect cleanup on index / play-state change)
and lines 87-89 (unmount cleanup): `clearTimeout(videoTimerRef.current)`. -/
def cleanupTimer (t : TimerSys) : TimerSys := clearRef t

/-- `part_002` lines 211-217: on a YouTube `playing` message the ref'd
timer is cleared (the ref itself is not nulled). -/
def clearOnPlaying (t : TimerSys) : TimerSys := clearRef t

/-- `part_002` lines 113-123: the expiry part of an interval tick — the
interval clears itself (`clearInterval(intervalId)`, line 117) and
`handleVideoEnd` fires, recorded in `fired`. -/
def expire (id : Nat) (t : TimerSys) : TimerSys :=
  { t with live := t.live.erase id, fired := id :: t.fired, remaining := 0 }

/-- One interval tick of interval `id` (only a still-armed interval can
tick): `remainingTime` decrements; on reaching zero the expiry above
runs, and `handleVideoEnd` (lines 158-161) additionally clears the ref
and nulls it. -/
def tick (id : Nat) (t : TimerSys) : TimerSys :=
  if id ∈ t.live then
    if t.remaining - 1 ≤ 0 then { clearRef (expire id t) with ref := none }
    else { t with remaining := t.remaining - 1 }
  else t

/-- The timer-touching reactions of the `part_002` component.  A trace is
an arbitrary sequence of these (a superset of the schedules React can
produce, including rapid manual skipping = `cleanup` followed by
`start`). -/
inductive TimerOp where
  | start (ty : VideoType)
  | cleanup
  | clearPlaying
  | tick (id : Nat)

/-- One reaction step. -/
def stepTimer (t : TimerSys) : TimerOp → TimerSys
  | .start ty => startVideoTimer ty t
  | .cleanup => cleanupTimer t
  | .clearPlaying => clearOnPlaying t
  | .tick id => tick id t

/-- The initial timer state: no interval armed, null ref. -/
def initTimer : TimerSys := ⟨[], none, [], 0, 30⟩

/-- Run a trace of reactions from the initial state. -/
def runTimer (ops : List TimerOp) : TimerSys :=
  ops.foldl stepTimer initTimer

/-- `part_002` lines 94-96 and 130-133: the timer effect returns before
arming anything when `currentVideo` is undefined, and arms only while
`isPlaying`. -/
def timerEffectArms (videos : List Video) (currentIndex : Nat) (isPlaying : Bool) : Bool :=
  (videos.get? currentIndex).isSome && isPlaying

end Part002

namespace VideoService

/-- JavaScript `\w`: `[A-Za-z0-9_]`. -/
def isWordChar (c : Char) : Bool := c.isAlpha || c.isDigit || c = '_'

/-- `sub` starts the list `cs`. -/
def startsWithSeq : List Char → List Char → Bool
  | [], _ => true
  | _ :: _, [] => false
  | a :: sub, b :: cs => a = b && startsWithSeq sub cs

/-- The tail of the `youtu.be\/` alternative after its initial `y`: the
unescaped `.` of the regular expression matches any character except a
line terminator. -/
def youtuTail : List Char → Bool
  | 'o' :: 'u' :: 't' :: 'u' :: c :: 'b' :: 'e' :: '/' :: _ => !(c = '\n' || c = '\r')
  | _ => false

/-- The tail of the `u\/\w\/` alternative after its initial `u`. -/
def uTail : List Char → Bool
  | '/' :: c :: '/' :: _ => isWordChar c
  | _ => false

/-- One alternative of the `extractYoutubeId` regular expression
(`videoService.ts` line 115), tried at the head of the list:
`youtu.be\/`, `v\/`, `u\/\w\/`, `embed\/`, `watch\?v=`, `&v=`.  Returns
the number of characters the alternative consumes.  The six alternatives
start with pairwise distinct characters (`y`, `v`, `u`, `e`, `w`, `&`),
so dispatching on the first character is exactly the regular
expression's ordered alternation. -/
def altAt : List Char → Option Nat
  | [] => none
  | c :: rest =>
      if c = 'y' then (if youtuTail rest then some 9 else none)
      else if c = 'v' then (if startsWithSeq ['/'] rest then some 2 else none)
      else if c = 'u' then (if uTail rest then some 4 else none)
      else if c = 'e' then (if startsWithSeq "mbed/".toList rest then some 6 else none)
      else if c = 'w' then (if startsWithSeq "atch?v=".toList rest then some 8 else none)
      else if c = '&' then (if startsWithSeq "v=".toList rest then some 3 else none)
      else none

/-- Position (and consumed length) of the backtracking match of the
regular expression's alternation.  The pattern starts with a greedy
`^.*`, so the JavaScript engine commits to the LAST position at which an
alternative matches (the rest of the pattern, `([^#&?]*).*`, matches any
suffix). -/
def findAlt : List Char → Option (Nat × Nat)
  | [] => none
  | c :: rest =>
      match findAlt rest with
      | some (p, k) => some (p + 1, k)
      | none =>
          match altAt (c :: rest) with
          | some k => some (0, k)
          | none => none

/-- The capture group `([^#&?]*)`: greedy, and never given back because
the trailing `.*` matches anything. -/
def jsCapture (cs : List Char) : List Char :=
  cs.takeWhile fun c => c ≠ '#' && c ≠ '&' && c ≠ '?'

/-- `videoService.ts` lines 114-118, `extractYoutubeId`: match the regular
expression; the result is capture group 2 if it has exactly 11
characters, else `null`. -/
def extractYoutubeId (url : List Char) : Option (List Char) :=
  match findAlt url with
  | none => none
  | some (p, k) =>
      let id := jsCapture (url.drop (p + k))
      if id.length = 11 then some id else none

/-- The character class `[A-Za-z0-9_-]` of the Canva regular
expression. -/
def isCanvaIdChar (c : Char) : Bool := c.isAlpha || c.isDigit || c = '_' || c = '-'

/-- One anchored attempt of the `extractCanvaId` regular expression
`\/design\/([A-Za-z0-9_-]+)(\/|$)` (`videoService.ts` line 122) at the
head of the list: `/design/`, a non-empty greedy run of id characters,
then `/` or end of input (the run cannot be given back, because every
shorter split leaves an id character where `\/|$` is required). -/
def canvaAt : List Char → Option (List Char)
  | '/' :: 'd' :: 'e' :: 's' :: 'i' :: 'g' :: 'n' :: '/' :: rest =>
      let id := rest.takeWhile isCanvaIdChar
      if id ≠ [] ∧ (rest.drop id.length = [] ∨ (rest.drop id.length).head? = some '/') then
        some id
      else none
  | _ => none

/-- `videoService.ts` lines 120-125, `extractCanvaId`: the regular
expression is unanchored, so the engine takes the FIRST position at which
the attempt succeeds. -/
def extractCanvaId : List Char → Option (List Char)
  | [] => none
  | c :: rest =>
      match canvaAt (c :: rest) with
      | some id => some id
      | none => extractCanvaId rest

/-- `s.includes(sub)`: `sub` occurs somewhere in `s`. -/
def containsSeq (sub : List Char) : List Char → Bool
  | [] => startsWithSeq sub []
  | c :: rest => startsWithSeq sub (c :: rest) || containsSeq sub rest

/-- JavaScript `String.prototype.trim`, restricted to the ASCII
whitespace the inputs here can contain. -/
def jsTrim (cs : List Char) : List Char :=
  ((cs.dropWhile Char.isWhitespace).reverse.dropWhile Char.isWhitespace).reverse

/-- `videoService.ts` lines 127-142, `isValidVideoUrl`: empty or
whitespace-only URLs are invalid; a YouTube URL is valid iff
`extractYoutubeId` succeeds; a Canva URL must contain
`canva.com/design/` and yield a Canva id. -/
def isValidVideoUrl (url : List Char) (type : VideoType) : Bool :=
  if url = [] ∨ jsTrim url = [] then false
  else
    match type with
    | .YOUTUBE => (extractYoutubeId url).isSome
    | .CANVA => containsSeq "canva.com/design/".toList url && (extractCanvaId url).isSome

end VideoService

namespace SpecOrch

/-- Modelled from the spec: the four canonical events of section 4.2
(`ENDED`, `ERRORED`, `RESUMED`, `PAUSED_EXTERNALLY`).  The consolidated
generation-stamped orchestrator of sections 4.3 and 4.5 is not present
under `src/` (the React iterations rely on effect teardown of listeners
instead of generation stamps), so this namespace follows the spec's
words. -/
inductive CanonicalEvent where
  | ENDED
  | ERRORED
  | RESUMED
  | PAUSED_EXTERNALLY
deriving DecidableEq

/-- Modelled from the spec: the `PlaybackState` of section 3 (the
`remainingTime` component, irrelevant to generation discipline, is
omitted). -/
structure OrchState where
  currentIndex : Nat
  isPlaying : Bool
  loopEnabled : Bool
  generation : Nat
deriving DecidableEq

/-- Modelled from the spec: a canonical event carrying the generation
stamp active at subscription time (section 4.2). -/
structure StampedEvent where
  ev : CanonicalEvent
  gen : Nat
deriving DecidableEq

/-- Modelled from the spec: `AdvancePolicy` of section 4.5.
`ENDED` while playing advances `(currentIndex + 1) mod N` and bumps
`generation`, except at the loop-off boundary where it holds and stops;
`ENDED` while not playing is a no-op; `ERRORED` advances unconditionally
and still bumps `generation`; `RESUMED` / `PAUSED_EXTERNALLY` update
`isPlaying` only. -/
def advancePolicy (N : Nat) (s : OrchState) : CanonicalEvent → OrchState
  | .ENDED =>
      if s.isPlaying then
        if s.loopEnabled = false ∧ s.currentIndex = N - 1 then
          { s with isPlaying := false }
        else
          { s with currentIndex := (s.currentIndex + 1) % N,
                   generation := s.generation + 1 }
      else s
  | .ERRORED =>
      { s with currentIndex := (s.currentIndex + 1) % N,
               generation := s.generation + 1 }
  | .RESUMED => { s with isPlaying := true }
  | .PAUSED_EXTERNALLY => { s with isPlaying := false }

/-- Modelled from the spec: staleness filtering of section 4.3 — an event
whose stamped generation does not match the current generation is
discarded unconditionally. -/
def processEvent (N : Nat) (s : OrchState) (e : StampedEvent) : OrchState :=
  if e.gen = s.generation then advancePolicy N s e.ev else s

/-- Modelled from the spec: `skipNext` of section 4.5 — wraps modulo `N`,
no-op when `N ≤ 1`, bumps `generation` on the index change. -/
def skipNext (N : Nat) (s : OrchState) : OrchState :=
  if N ≤ 1 then s
  else { s with currentIndex := (s.currentIndex + 1) % N,
                generation := s.generation + 1 }

/-- Modelled from the spec: `skipPrevious` of section 4.5. -/
def skipPrevious (N : Nat) (s : OrchState) : OrchState :=
  if N ≤ 1 then s
  else { s with currentIndex := if s.currentIndex = 0 then N - 1 else s.currentIndex - 1,
                generation := s.generation + 1 }

/-- Modelled from the spec: `togglePlayPause` of section 4.5 — a play or
pause toggle never bumps `generation`. -/
def togglePlayPause (s : OrchState) : OrchState :=
  { s with isPlaying := !s.isPlaying }

/-- Modelled from the spec: `toggleLoop` of section 4.5. -/
def toggleLoop (s : OrchState) : OrchState :=
  { s with loopEnabled := !s.loopEnabled }

/-- Modelled from the spec: playlist replacement (sections 3 and 4.3) —
the cursor is reset to `0` and `generation` is bumped. -/
def replacePlaylist (s : OrchState) : OrchState :=
  { s with currentIndex := 0, generation := s.generation + 1 }

end SpecOrch

/-- A well-formed lifecycle notification: a non-null object payload whose
`event` field is the string `'onStateChange'` and whose `info` field is
one of the recognized player state codes `0` (ended), `-1` (errored),
`1` (playing), `2` (paused). -/
def wellFormedNotification : JsData → Bool
  | .jobj (some e) (some i) =>
      if e = onStateChange ∧ (i = 0 ∨ i = -1 ∨ i = 1 ∨ i = 2) then true else false
  | _ => false

/-- Helper: iterating the `part_001` end-of-video transition with
`isPlaying = true` and `loopEnabled = true` advances the cursor by one
modulo `N` per step. -/
theorem part001_ended_iterate (N i : Nat) (hN : 1 < N) (hi : i < N) (k : Nat) :
    (Part001.handleVideoEnd N)^[k] ⟨i, true, true⟩ = ⟨(i + k) % N, true, true⟩ := by
  induction k with
  | zero => simp [Nat.mod_eq_of_lt hi]
  | succ k ih =>
      rw [Function.iterate_succ_apply', ih]
      have h1 : ¬ (N ≤ 1) := by omega
      simp [Part001.handleVideoEnd, Part001.goToNextVideo, h1, Nat.mod_add_mod,
            Nat.add_assoc]

/-- Helper: iterating the `part_000` end-of-video transition with
`isPlaying = true` advances the cursor by one modulo `N` per step. -/
theorem part000_ended_iterate (N i : Nat) (hi : i < N) (k : Nat) :
    (Part000.handleVideoEnd N)^[k] ⟨i, true⟩ = ⟨(i + k) % N, true⟩ := by
  induction k with
  | zero => simp [Nat.mod_eq_of_lt hi]
  | succ k ih =>
      rw [Function.iterate_succ_apply', ih]
      simp [Part000.handleVideoEnd, Part000.goToNextVideo, Nat.mod_add_mod,
            Nat.add_assoc]

/-- C2 counterexample: with `N = 2`, `loopEnabled = false` and
`currentIndex = N - 1 = 1`, the `part_003` ERRORED message (YouTube
`info = -1`) leaves the state unchanged — it does NOT wrap to 0, because
`goToNextVideo` applies the loop-off boundary check to the error path
too. -/
theorem c2_cex :
    Part003.handleMessage 2 ⟨1, true, false⟩ (.jobj (some onStateChange) (some (-1))) =
      .ok ⟨1, true, false⟩ ∧
    (Part003.goToNextVideo 2 ⟨1, true, false⟩).currentIndex ≠ 0 := by decide

/-- C2 (amended): with `loopEnabled = false` at `currentIndex = N - 1`,
an ERRORED event holds position (the whole state is unchanged) exactly
like the index part of ENDED; the difference from ENDED at that boundary
is only that ENDED additionally sets `isPlaying = false`. -/
theorem c2_errored_boundary (N : Nat) (s : Part003.PlayerState)
    (hN : 1 < N) (hi : s.currentIndex = N - 1) (hl : s.loopEnabled = false) :
    Part003.handleMessage N s (.jobj (some onStateChange) (some (-1))) = .ok s ∧
    Part003.handleMessage N s (.jobj (some onStateChange) (some 0)) =
      .ok { s with isPlaying := false } := by
  have h1 : ¬ (N ≤ 1) := by omega
  constructor
  · simp [Part003.handleMessage, Part003.goToNextVideo, h1, hl, hi]
  · simp [Part003.handleMessage, Part003.handleVideoEnd, hl, hi]

/-- C2 witness. -/
theorem c2_errored_boundary_witness :
    Part003.handleMessage 2 ⟨1, true, false⟩ (.jobj (some onStateChange) (some (-1))) =
      .ok ⟨1, true, false⟩ ∧
    Part003.handleMessage 2 ⟨1, true, false⟩ (.jobj (some onStateChange) (some 0)) =
      .ok { (⟨1, true, false⟩ : Part003.PlayerState) with isPlaying := false } :=
  c2_errored_boundary 2 ⟨1, true, false⟩ (by decide) (by decide) (by decide)

/-- C3 counterexample: in the `part_001` iteration, ENDED at the loop-off
boundary leaves `isPlaying = true` (the claim requires it to become
`false`). -/
theorem c3_cex :
    Part001.handleVideoEnd 2 ⟨1, true, false⟩ = ⟨1, true, false⟩ ∧
    (Part001.handleVideoEnd 2 ⟨1, true, false⟩).isPlaying = true := by decide

/-- C3 (amended): in the `part_003` iteration ENDED behaves exactly as
claimed — at the loop-off boundary it holds position and sets
`isPlaying = false`, otherwise it advances modulo `N` and keeps playing;
the `part_001` iteration also holds position at the boundary but leaves
`isPlaying` untouched (it stays `true`). -/
theorem c3_ended_policy (N : Nat) (s : Part003.PlayerState) (t : Part001.PlayerState)
    (hi : s.currentIndex < N) (hp : s.isPlaying = true) (ht : t.isPlaying = true) :
    (s.loopEnabled = false ∧ s.currentIndex = N - 1 →
       Part003.handleVideoEnd N s = { s with isPlaying := false }) ∧
    (¬ (s.loopEnabled = false ∧ s.currentIndex = N - 1) →
       Part003.handleVideoEnd N s =
         { s with currentIndex := (s.currentIndex + 1) % N, isPlaying := true }) ∧
    (t.loopEnabled = false → t.currentIndex = N - 1 →
       Part001.handleVideoEnd N t = t) := by
  refine ⟨?_, ?_, ?_⟩
  · rintro ⟨hl, hb⟩
    simp [Part003.handleVideoEnd, hl, hb]
  · intro h
    obtain ⟨i, p, l⟩ := s
    simp only at hi hp h
    subst hp
    unfold Part003.handleVideoEnd Part003.goToNextVideo
    split_ifs with hA hB
    · dsimp only at hA
      exact absurd ⟨hA.1, by omega⟩ h
    · have hN : N = 1 := by omega
      have hi0 : i = 0 := by omega
      subst hN; subst hi0
      simp
    · rfl
  · intro hl hb
    simp [Part001.handleVideoEnd, ht, hl, hb, Nat.le_of_eq hb.symm]

/-- C3 witness. -/
theorem c3_ended_policy_witness :
    Part003.handleVideoEnd 2 ⟨1, true, false⟩ =
      { (⟨1, true, false⟩ : Part003.PlayerState) with isPlaying := false } ∧
    Part003.handleVideoEnd 2 ⟨0, true, false⟩ =
      { (⟨0, true, false⟩ : Part003.PlayerState) with currentIndex := (0 + 1) % 2,
                                                      isPlaying := true } ∧
    Part001.handleVideoEnd 2 ⟨1, true, false⟩ = ⟨1, true, false⟩ :=
  ⟨(c3_ended_policy 2 ⟨1, true, false⟩ ⟨1, true, false⟩ (by decide) (by decide)
      (by decide)).1 (by decide),
   (c3_ended_policy 2 ⟨0, true, false⟩ ⟨1, true, false⟩ (by decide) (by decide)
      (by decide)).2.1 (by decide),
   (c3_ended_policy 2 ⟨1, true, false⟩ ⟨1, true, false⟩ (by decide) (by decide)
      (by decide)).2.2 (by decide) (by decide)⟩

/-- C4: with `loopEnabled = true`, `isPlaying = true` and `1 < N`,
processing exactly `N` consecutive ENDED events returns the cursor to its
starting index, in both the `part_001` and the `part_000` iterations. -/
theorem c4_loop_wrap (N i : Nat) (hN : 1 < N) (hi : i < N) :
    (Part001.handleVideoEnd N)^[N] ⟨i, true, true⟩ = ⟨i, true, true⟩ ∧
    (Part000.handleVideoEnd N)^[N] ⟨i, true⟩ = ⟨i, true⟩ := by
  constructor
  · rw [part001_ended_iterate N i hN hi N, Nat.add_mod_right, Nat.mod_eq_of_lt hi]
  · rw [part000_ended_iterate N i hi N, Nat.add_mod_right, Nat.mod_eq_of_lt hi]

/-- C4 witness. -/
theorem c4_loop_wrap_witness :
    (Part001.handleVideoEnd 3)^[3] ⟨2, true, true⟩ = ⟨2, true, true⟩ ∧
    (Part000.handleVideoEnd 3)^[3] ⟨2, true⟩ = ⟨2, true⟩ :=
  c4_loop_wrap 3 2 (by decide) (by decide)

/-- C5 counterexample: in the `part_003` iteration the end-of-video
transition has no `isPlaying` guard, so an ENDED message received while
paused advances the index and resumes playback — not a no-op. -/
theorem c5_cex :
    Part003.handleMessage 2 ⟨0, false, true⟩ (.jobj (some onStateChange) (some 0)) =
      .ok ⟨1, true, true⟩ ∧
    (⟨1, true, true⟩ : Part003.PlayerState) ≠ ⟨0, false, true⟩ := by decide

/-- C5 (amended): in the `part_000` and `part_001` iterations — the ones
that guard the end-of-video transition with `if (isPlaying)` — an ENDED
message while `isPlaying = false` is a no-op; the `part_003` iteration
applies the transition regardless of `isPlaying`. -/
theorem c5_ended_paused_noop (N M : Nat) (s : Part000.PlayerState) (t : Part001.PlayerState)
    (hs : s.isPlaying = false) (ht : t.isPlaying = false) :
    Part000.handleMessage N s (.jobj (some onStateChange) (some 0)) = .ok s ∧
    Part001.handleMessage M t (.jobj (some onStateChange) (some 0)) = .ok t := by
  constructor
  · simp [Part000.handleMessage, Part000.handleVideoEnd, hs]
  · simp [Part001.handleMessage, Part001.handleVideoEnd, ht]

/-- C5 witness. -/
theorem c5_ended_paused_noop_witness :
    Part000.handleMessage 2 ⟨0, false⟩ (.jobj (some onStateChange) (some 0)) =
      .ok ⟨0, false⟩ ∧
    Part001.handleMessage 2 ⟨0, false, true⟩ (.jobj (some onStateChange) (some 0)) =
      .ok ⟨0, false, true⟩ :=
  c5_ended_paused_noop 2 2 ⟨0, false⟩ ⟨0, false, true⟩ (by decide) (by decide)

/-- C6 counterexample: in the `part_003` iteration, the skip-next control
(`goToNextVideo`) at index `N - 1` with `loopEnabled = false` does not
wrap to 0 — it holds position. -/
theorem c6_cex : (Part003.goToNextVideo 2 ⟨1, true, false⟩).currentIndex ≠ 0 := by decide

/-- C6 (amended): both skips are no-ops when `N ≤ 1`; for `N > 1`,
`skipPrevious` (`goToPreviousVideo`) always wraps (0 goes to `N - 1`,
otherwise decrement), while `skipNext` (`goToNextVideo`) wraps modulo `N`
only when `loopEnabled = true` or the cursor is before the last index —
at the loop-off boundary it holds position. -/
theorem c6_skip_wrap (N : Nat) (s : Part003.PlayerState) :
    (N ≤ 1 → Part003.goToNextVideo N s = s ∧ Part003.goToPreviousVideo N s = s) ∧
    (1 < N →
      Part003.goToPreviousVideo N s =
        { s with currentIndex := if s.currentIndex = 0 then N - 1 else s.currentIndex - 1 } ∧
      (s.loopEnabled = true ∨ s.currentIndex < N - 1 →
        Part003.goToNextVideo N s = { s with currentIndex := (s.currentIndex + 1) % N }) ∧
      (s.loopEnabled = false → N - 1 ≤ s.currentIndex → Part003.goToNextVideo N s = s)) := by
  refine ⟨fun h1 => ⟨?_, ?_⟩, fun h2 => ⟨?_, ?_, ?_⟩⟩
  · simp [Part003.goToNextVideo, h1]
  · simp [Part003.goToPreviousVideo, h1]
  · have h1 : ¬ (N ≤ 1) := by omega
    simp [Part003.goToPreviousVideo, h1, Nat.le_zero]
  · intro h
    unfold Part003.goToNextVideo
    split_ifs with hB hA
    · omega
    · rcases h with h | h
      · simp [h] at hA
      · exact absurd hA.2 (by omega)
    · rfl
  · intro hl hb
    unfold Part003.goToNextVideo
    split_ifs with hB hA
    · rfl
    · rfl
    · exact absurd ⟨hl, hb⟩ hA

/-- C6 witness. -/
theorem c6_skip_wrap_witness :
    Part003.goToPreviousVideo 3 ⟨0, true, true⟩ =
      { (⟨0, true, true⟩ : Part003.PlayerState) with
          currentIndex := if (0 : Nat) = 0 then 3 - 1 else 0 - 1 } ∧
    Part003.goToNextVideo 3 ⟨2, true, true⟩ =
      { (⟨2, true, true⟩ : Part003.PlayerState) with currentIndex := (2 + 1) % 3 } ∧
    Part003.goToNextVideo 3 ⟨2, true, false⟩ = ⟨2, true, false⟩ ∧
    Part003.goToNextVideo 1 ⟨0, true, true⟩ = ⟨0, true, true⟩ :=
  ⟨((c6_skip_wrap 3 ⟨0, true, true⟩).2 (by decide)).1,
   ((c6_skip_wrap 3 ⟨2, true, true⟩).2 (by decide)).2.1 (by decide),
   ((c6_skip_wrap 3 ⟨2, true, false⟩).2 (by decide)).2.2 (by decide) (by decide),
   ((c6_skip_wrap 1 ⟨0, true, true⟩).1 (by decide)).1⟩

/-- C7 counterexample: the play/pause and loop toggles mutate their flags
unconditionally — they are defined independently of the playlist, so with
an empty playlist they are NOT no-ops on the component state (they are
merely unreachable, because the control bar is not rendered). -/
theorem c7_cex :
    Part003.togglePlayPause ⟨0, true, true⟩ ≠ ⟨0, true, true⟩ ∧
    Part003.toggleLooping ⟨0, true, true⟩ ≠ ⟨0, true, true⟩ := by decide

/-- C7 (amended): with an empty playlist the current item is undefined,
`skipNext` and `skipPrevious` are no-ops, the component renders the
empty-state placeholder instead of any control button (so no
control-surface call can be issued from the UI), and the countdown-timer
effect never arms a timer. -/
theorem c7_empty_playlist (s : Part003.PlayerState) (i : Nat) (p : Bool) :
    Part003.currentVideo [] i = none ∧
    Part003.goToNextVideo 0 s = s ∧
    Part003.goToPreviousVideo 0 s = s ∧
    Part003.rendersControls [] i = false ∧
    Part002.timerEffectArms [] i p = false := by
  refine ⟨?_, ?_, ?_, ?_, ?_⟩ <;>
    simp [Part003.currentVideo, Part003.goToNextVideo, Part003.goToPreviousVideo,
          Part003.rendersControls, Part002.timerEffectArms]

/-- C1: in the spec-modelled generation-stamped orchestrator (sections
4.3 and 4.5 — the consolidated design is not implemented under `src/`):
an event whose stamp differs from the current generation is discarded
with no state change; every transition that changes the index bumps the
generation by exactly one; playlist replacement bumps it; play/pause
toggles and `RESUMED`/`PAUSED_EXTERNALLY` never do; and a delayed
duplicate ENDED carrying the pre-skip generation, processed after a
`skipNext` that changed the index, leaves the state unchanged. -/
theorem c1_generation_discipline (N : Nat) (s : SpecOrch.OrchState)
    (e : SpecOrch.StampedEvent) :
    (e.gen ≠ s.generation → SpecOrch.processEvent N s e = s) ∧
    ((SpecOrch.processEvent N s e).currentIndex ≠ s.currentIndex →
       (SpecOrch.processEvent N s e).generation = s.generation + 1) ∧
    (SpecOrch.processEvent N s ⟨.RESUMED, s.generation⟩).generation = s.generation ∧
    (SpecOrch.processEvent N s ⟨.PAUSED_EXTERNALLY, s.generation⟩).generation = s.generation ∧
    (SpecOrch.togglePlayPause s).generation = s.generation ∧
    (SpecOrch.toggleLoop s).generation = s.generation ∧
    ((SpecOrch.skipNext N s).currentIndex ≠ s.currentIndex →
       (SpecOrch.skipNext N s).generation = s.generation + 1) ∧
    ((SpecOrch.skipPrevious N s).currentIndex ≠ s.currentIndex →
       (SpecOrch.skipPrevious N s).generation = s.generation + 1) ∧
    (SpecOrch.replacePlaylist s).generation = s.generation + 1 ∧
    ((SpecOrch.skipNext N s).currentIndex ≠ s.currentIndex →
       SpecOrch.processEvent N (SpecOrch.skipNext N s) ⟨.ENDED, s.generation⟩ =
         SpecOrch.skipNext N s) := by
  obtain ⟨ev, g⟩ := e
  refine ⟨?_, ?_, ?_, ?_, rfl, rfl, ?_, ?_, rfl, ?_⟩
  · intro h
    simp only at h
    simp [SpecOrch.processEvent, h]
  · intro h
    by_cases hg : g = s.generation
    · subst hg
      cases ev <;>
        simp only [SpecOrch.processEvent, if_pos rfl, SpecOrch.advancePolicy] at h ⊢ <;>
        split_ifs at h ⊢ <;> simp_all
    · simp [SpecOrch.processEvent, hg] at h
  · simp [SpecOrch.processEvent, SpecOrch.advancePolicy]
  · simp [SpecOrch.processEvent, SpecOrch.advancePolicy]
  · intro h
    unfold SpecOrch.skipNext at h ⊢
    split_ifs at h ⊢ <;> simp_all
  · intro h
    unfold SpecOrch.skipPrevious at h ⊢
    split_ifs at h ⊢ <;> simp_all
  · intro h
    unfold SpecOrch.skipNext at h ⊢
    split_ifs at h ⊢ with h1
    · simp_all
    · simp [SpecOrch.processEvent]

/-- C1 witness. -/
theorem c1_generation_discipline_witness :
    SpecOrch.processEvent 3 ⟨0, true, true, 5⟩ ⟨.ENDED, 4⟩ = ⟨0, true, true, 5⟩ ∧
    SpecOrch.processEvent 3 (SpecOrch.skipNext 3 ⟨0, true, true, 5⟩) ⟨.ENDED, 5⟩ =
      SpecOrch.skipNext 3 ⟨0, true, true, 5⟩ :=
  ⟨(c1_generation_discipline 3 ⟨0, true, true, 5⟩ ⟨.ENDED, 4⟩).1 (by decide),
   (c1_generation_discipline 3 ⟨0, true, true, 5⟩ ⟨.ENDED, 5⟩).2.2.2.2.2.2.2.2.2
     (by decide)⟩

/-- C8 counterexample: the `part_000` message handler has no `try`/`catch`;
for a `null` payload `typeof event.data === 'object'` passes and
`event.data.event` throws a `TypeError` that escapes the handler
boundary (the payload is malformed: not an object in the intended
sense). -/
theorem c8_cex :
    Part000.handleMessage 2 ⟨0, true⟩ .jnull = .error .typeError ∧
    wellFormedNotification .jnull = false := by decide

/-- C8 (amended): a malformed payload never changes the state in any
iteration; in the `try`/`catch`-wrapped iterations (`part_001`,
`part_003`) no error escapes either, while in `part_000` every malformed
payload other than `null` is also dropped without error (`null` alone
escapes as a TypeError, still with no state change). -/
theorem c8_malformed_dropped (N0 N1 N3 : Nat) (s0 : Part000.PlayerState)
    (s1 : Part001.PlayerState) (s3 : Part003.PlayerState) (d : JsData)
    (h : wellFormedNotification d = false) :
    Part001.handleMessage N1 s1 d = .ok s1 ∧
    Part003.handleMessage N3 s3 d = .ok s3 ∧
    (d ≠ .jnull → Part000.handleMessage N0 s0 d = .ok s0) := by
  cases d with
  | jnull => exact ⟨rfl, rfl, fun hd => absurd rfl hd⟩
  | jprim => exact ⟨rfl, rfl, fun _ => rfl⟩
  | jobj eo io =>
      rcases eo with _ | ev
      · refine ⟨?_, ?_, fun _ => ?_⟩ <;>
          simp [Part000.handleMessage, Part001.handleMessage, Part003.handleMessage]
      rcases io with _ | n
      · refine ⟨?_, ?_, fun _ => ?_⟩ <;>
          simp [Part000.handleMessage, Part001.handleMessage, Part003.handleMessage]
      · by_cases he : ev = onStateChange
        · subst he
          have hn : ¬ (n = 0 ∨ n = -1 ∨ n = 1 ∨ n = 2) := by
            intro hcases
            rcases hcases with rfl | rfl | rfl | rfl <;>
              simp [wellFormedNotification] at h
          push_neg at hn
          obtain ⟨h0, h1, h2, h3⟩ := hn
          refine ⟨?_, ?_, fun _ => ?_⟩ <;>
            simp [Part000.handleMessage, Part001.handleMessage, Part003.handleMessage,
                  h0, h1, h2, h3]
        · refine ⟨?_, ?_, fun _ => ?_⟩ <;>
            simp [Part000.handleMessage, Part001.handleMessage, Part003.handleMessage, he]

/-- C8 witness. -/
theorem c8_malformed_dropped_witness :
    Part001.handleMessage 2 ⟨0, true, true⟩ (.jobj (some "foo".toList) (some 0)) =
      .ok ⟨0, true, true⟩ ∧
    Part003.handleMessage 2 ⟨0, true, true⟩ (.jobj (some "foo".toList) (some 0)) =
      .ok ⟨0, true, true⟩ ∧
    Part000.handleMessage 2 ⟨0, true⟩ (.jobj (some "foo".toList) (some 0)) =
      .ok ⟨0, true⟩ :=
  ⟨(c8_malformed_dropped 2 2 2 ⟨0, true⟩ ⟨0, true, true⟩ ⟨0, true, true⟩
      (.jobj (some "foo".toList) (some 0)) (by decide)).1,
   (c8_malformed_dropped 2 2 2 ⟨0, true⟩ ⟨0, true, true⟩ ⟨0, true, true⟩
      (.jobj (some "foo".toList) (some 0)) (by decide)).2.1,
   (c8_malformed_dropped 2 2 2 ⟨0, true⟩ ⟨0, true, true⟩ ⟨0, true, true⟩
      (.jobj (some "foo".toList) (some 0)) (by decide)).2.2 (by decide)⟩

/-- Helper: the inductive invariant of the `part_002` timer resource —
armed intervals are pairwise distinct and all referenced by
`videoTimerRef`, expiries are pairwise distinct, no armed interval has
already fired, and every id seen so far is below the next fresh id. -/
def TimerInv (t : Part002.TimerSys) : Prop :=
  t.live.Nodup ∧ (∀ id ∈ t.live, t.ref = some id) ∧
  t.fired.Nodup ∧ (∀ id ∈ t.live, id ∉ t.fired) ∧
  (∀ id ∈ t.live, id < t.nextId) ∧ (∀ id ∈ t.fired, id < t.nextId)

/-- Helper: under the invariant, either nothing is armed or exactly the
referenced interval is. -/
theorem timerInv_live_cases (t : Part002.TimerSys) (h : TimerInv t) :
    t.live = [] ∨ ∃ r, t.ref = some r ∧ t.live = [r] := by
  obtain ⟨live, ref, fired, nid, rem⟩ := t
  obtain ⟨hnd, href, -, -, -, -⟩ := h
  dsimp only at hnd href ⊢
  cases live with
  | nil => exact Or.inl rfl
  | cons a rest =>
      have ha : ref = some a := href a (List.mem_cons_self a rest)
      have hrest : rest = [] := by
        cases rest with
        | nil => rfl
        | cons b rest2 =>
            have hb : ref = some b := href b (by simp)
            rw [ha] at hb
            injection hb with hab
            subst hab
            simp at hnd
      subst hrest
      exact Or.inr ⟨a, ha, rfl⟩

/-- Helper: computation rule for `clearRef` with a null ref. -/
theorem clearRef_none (t : Part002.TimerSys) (h : t.ref = none) :
    Part002.clearRef t = t := by
  unfold Part002.clearRef
  rw [h]

/-- Helper: computation rule for `clearRef` with a non-null ref. -/
theorem clearRef_some (t : Part002.TimerSys) (r : Nat) (h : t.ref = some r) :
    Part002.clearRef t = { t with live := t.live.erase r } := by
  unfold Part002.clearRef
  rw [h]

/-- Helper: `clearRef` leaves every field except `live` unchanged. -/
theorem clearRef_fields (t : Part002.TimerSys) :
    (Part002.clearRef t).ref = t.ref ∧ (Part002.clearRef t).fired = t.fired ∧
    (Part002.clearRef t).nextId = t.nextId ∧
    (Part002.clearRef t).remaining = t.remaining := by
  cases href : t.ref with
  | none => rw [clearRef_none t href]; exact ⟨href, rfl, rfl, rfl⟩
  | some r => rw [clearRef_some t r href]; exact ⟨href, rfl, rfl, rfl⟩

/-- Helper: under the invariant, clearing the referenced timer leaves no
armed interval at all. -/
theorem clearRef_live_nil (t : Part002.TimerSys) (h : TimerInv t) :
    (Part002.clearRef t).live = [] := by
  rcases timerInv_live_cases t h with hl | ⟨r, hr, hl⟩
  · cases href : t.ref with
    | none => rw [clearRef_none t href]; exact hl
    | some x => rw [clearRef_some t x href]; dsimp only; rw [hl]; rfl
  · rw [clearRef_some t r hr]
    dsimp only
    rw [hl]
    simp

/-- Helper: a state with no armed interval is unaffected (on `live`) by
`clearRef`. -/
theorem clearRef_live_of_nil (t : Part002.TimerSys) (h : t.live = []) :
    (Part002.clearRef t).live = [] := by
  cases href : t.ref with
  | none => rw [clearRef_none t href]; exact h
  | some x => rw [clearRef_some t x href]; dsimp only; rw [h]; rfl

/-- Helper: `clearRef` preserves the invariant. -/
theorem timerInv_clearRef (t : Part002.TimerSys) (h : TimerInv t) :
    TimerInv (Part002.clearRef t) := by
  have hln := clearRef_live_nil t h
  obtain ⟨hr, hf, hn, -⟩ := clearRef_fields t
  obtain ⟨-, -, h3, -, -, h6⟩ := h
  refine ⟨?_, ?_, ?_, ?_, ?_, ?_⟩
  · rw [hln]; exact List.nodup_nil
  · rw [hln]; simp
  · rw [hf]; exact h3
  · rw [hln]; simp
  · rw [hln]; simp
  · rw [hf, hn]; exact h6

/-- Helper: every timer reaction of the `part_002` component preserves
the invariant. -/
theorem timerInv_step (t : Part002.TimerSys) (op : Part002.TimerOp) (h : TimerInv t) :
    TimerInv (Part002.stepTimer t op) := by
  obtain ⟨h1, h2, h3, h4, h5, h6⟩ := h
  cases op with
  | cleanup => exact timerInv_clearRef t ⟨h1, h2, h3, h4, h5, h6⟩
  | clearPlaying => exact timerInv_clearRef t ⟨h1, h2, h3, h4, h5, h6⟩
  | start ty =>
      have hln := clearRef_live_nil t ⟨h1, h2, h3, h4, h5, h6⟩
      obtain ⟨hr, hf, hn, -⟩ := clearRef_fields t
      have h30 : Part002.timeLimit ty = 30 := by cases ty <;> rfl
      show TimerInv (Part002.startVideoTimer ty t)
      unfold Part002.startVideoTimer
      rw [if_pos (Or.inr (by rw [h30]; norm_num))]
      refine ⟨?_, ?_, ?_, ?_, ?_, ?_⟩ <;> dsimp only
      · rw [hln]; simp
      · rw [hln]; simp
      · rw [hf]; exact h3
      · rw [hln, hf, hn]
        intro x hx
        rw [List.mem_singleton] at hx
        subst hx
        intro hmem
        exact absurd (h6 _ hmem) (lt_irrefl _)
      · rw [hln, hn]
        intro x hx
        rw [List.mem_singleton] at hx
        subst hx
        exact Nat.lt_succ_self _
      · rw [hf, hn]
        intro x hx
        exact Nat.lt_succ_of_lt (h6 x hx)
  | tick id =>
      show TimerInv (Part002.tick id t)
      unfold Part002.tick
      by_cases hm : id ∈ t.live
      · rcases timerInv_live_cases t ⟨h1, h2, h3, h4, h5, h6⟩ with hl | ⟨r, hr, hl⟩
        · rw [hl] at hm; cases hm
        · have hid : id = r := by rw [hl] at hm; simpa using hm
          subst hid
          rw [if_pos hm]
          split_ifs with hrem
          · rw [clearRef_some (Part002.expire id t) id hr]
            refine ⟨?_, ?_, ?_, ?_, ?_, ?_⟩ <;> dsimp only [Part002.expire]
            · rw [hl]; simp
            · rw [hl]; simp
            · exact List.nodup_cons.mpr ⟨h4 id hm, h3⟩
            · rw [hl]; simp
            · rw [hl]; simp
            · intro x hx
              rcases List.mem_cons.mp hx with rfl | hx
              · exact h5 _ hm
              · exact h6 _ hx
          · exact ⟨h1, h2, h3, h4, h5, h6⟩
      · rw [if_neg hm]
        exact ⟨h1, h2, h3, h4, h5, h6⟩

/-- Helper: the initial timer state satisfies the invariant. -/
theorem timerInv_init : TimerInv Part002.initTimer := by
  refine ⟨?_, ?_, ?_, ?_, ?_, ?_⟩ <;> simp [Part002.initTimer]

/-- Helper: the invariant holds after any trace of timer reactions. -/
theorem timerInv_runTimer (ops : List Part002.TimerOp) :
    TimerInv (Part002.runTimer ops) := by
  unfold Part002.runTimer
  have hfold : ∀ t, TimerInv t → TimerInv (ops.foldl Part002.stepTimer t) := by
    induction ops with
    | nil => exact fun t ht => ht
    | cons op rest ih => exact fun t ht => ih _ (timerInv_step t op ht)
  exact hfold Part002.initTimer timerInv_init

/-- C9: after any trace of `part_002` timer reactions (arming, effect
cleanup, the YouTube `playing`-message clear, interval ticks — including
any interleaving produced by rapid manual skipping): at most one interval
is live; no interval ever fires its end-of-countdown `ENDED` twice;
cleanup (index change, pause, unmount) leaves no interval armed; arming
first cancels whatever was live, so exactly the fresh interval remains;
and the fresh id is never one that was already live. -/
theorem c9_timer_exclusivity (ops : List Part002.TimerOp) (ty : VideoType) :
    (Part002.runTimer ops).live.length ≤ 1 ∧
    (Part002.runTimer ops).fired.Nodup ∧
    (Part002.cleanupTimer (Part002.runTimer ops)).live = [] ∧
    (Part002.startVideoTimer ty (Part002.runTimer ops)).live =
      [(Part002.runTimer ops).nextId] ∧
    (Part002.runTimer ops).nextId ∉ (Part002.runTimer ops).live := by
  have h := timerInv_runTimer ops
  refine ⟨?_, h.2.2.1, clearRef_live_nil _ h, ?_, ?_⟩
  · rcases timerInv_live_cases _ h with hl | ⟨r, -, hl⟩ <;> simp [hl]
  · have hln := clearRef_live_nil _ h
    obtain ⟨-, -, hn, -⟩ := clearRef_fields (Part002.runTimer ops)
    have h30 : Part002.timeLimit ty = 30 := by cases ty <;> rfl
    unfold Part002.startVideoTimer
    rw [if_pos (Or.inr (by rw [h30]; norm_num))]
    dsimp only
    rw [hln, hn]
  · intro hmem
    exact absurd (h.2.2.2.2.1 _ hmem) (lt_irrefl _)

/-- Helper: an alternative of the YouTube regular expression can only
match at a position whose first character is one of the (non-whitespace)
alternative-initial characters. -/
theorem altAt_head_nonws (cs : List Char) (k : Nat) (h : VideoService.altAt cs = some k) :
    ∃ c rest, cs = c :: rest ∧ c.isWhitespace = false := by
  cases cs with
  | nil => simp [VideoService.altAt] at h
  | cons c rest =>
      refine ⟨c, rest, rfl, ?_⟩
      simp only [VideoService.altAt] at h
      split_ifs at h <;> subst_vars <;> decide

/-- Helper: a successful match of the alternation implies the URL
contains a non-whitespace character. -/
theorem findAlt_nonws (cs : List Char) (pk : Nat × Nat)
    (h : VideoService.findAlt cs = some pk) :
    ∃ c ∈ cs, c.isWhitespace = false := by
  induction cs generalizing pk with
  | nil => cases h
  | cons c rest ih =>
      unfold VideoService.findAlt at h
      cases hr : VideoService.findAlt rest with
      | some pk2 =>
          obtain ⟨d, hd, hw⟩ := ih pk2 hr
          exact ⟨d, List.mem_cons_of_mem _ hd, hw⟩
      | none =>
          rw [hr] at h
          cases ha : VideoService.altAt (c :: rest) with
          | some k =>
              obtain ⟨d, rest2, heq, hw⟩ := altAt_head_nonws _ _ ha
              injection heq with h1 h2
              subst h1
              exact ⟨c, List.mem_cons_self c rest, hw⟩
          | none => rw [ha] at h; cases h

/-- Helper: if `jsTrim` empties a string, every character of it is
whitespace. -/
theorem jsTrim_eq_nil (cs : List Char) (h : VideoService.jsTrim cs = []) :
    ∀ c ∈ cs, c.isWhitespace = true := by
  unfold VideoService.jsTrim at h
  rw [List.reverse_eq_nil_iff, List.dropWhile_eq_nil_iff] at h
  intro c hc
  have hdrop : ∀ a ∈ cs.dropWhile Char.isWhitespace, a.isWhitespace = true := by
    intro a ha
    exact h a (List.mem_reverse.mpr ha)
  have hsplit := List.takeWhile_append_dropWhile (p := Char.isWhitespace) (l := cs)
  rw [← hsplit] at hc
  rcases List.mem_append.mp hc with hc | hc
  · exact List.mem_takeWhile_imp hc
  · exact hdrop c hc

/-- Helper: whatever the regular expression engine captured,
`extractYoutubeId` only returns it when it has exactly 11 characters. -/
theorem extractYoutubeId_length (url id : List Char)
    (h : VideoService.extractYoutubeId url = some id) : id.length = 11 := by
  unfold VideoService.extractYoutubeId at h
  cases hf : VideoService.findAlt url with
  | none => rw [hf] at h; cases h
  | some pk =>
      rw [hf] at h
      obtain ⟨p, k⟩ := pk
      dsimp only at h
      split_ifs at h with hlen
      injection h with h2
      rw [← h2]
      exact hlen

/-- Helper: a URL from which an id is extracted is neither empty nor
whitespace-only. -/
theorem extractYoutubeId_isSome_nontrivial (url : List Char)
    (h : (VideoService.extractYoutubeId url).isSome = true) :
    ¬ (url = [] ∨ VideoService.jsTrim url = []) := by
  obtain ⟨id, hid⟩ := Option.isSome_iff_exists.mp h
  have hfind : ∃ pk, VideoService.findAlt url = some pk := by
    unfold VideoService.extractYoutubeId at hid
    cases hf : VideoService.findAlt url with
    | none => rw [hf] at hid; cases hid
    | some pk => exact ⟨pk, rfl⟩
  obtain ⟨pk, hpk⟩ := hfind
  obtain ⟨c, hc, hw⟩ := findAlt_nonws url pk hpk
  rintro (rfl | htrim)
  · cases hc
  · rw [jsTrim_eq_nil url htrim c hc] at hw
    cases hw

/-- C10: `extractYoutubeId` returns `null` or a string of exactly 11
characters, and `isValidVideoUrl` with the YouTube type returns `true`
exactly when an 11-character id is extractable from the URL. -/
theorem c10_extract_id_shape (url : List Char) :
    (∀ id, VideoService.extractYoutubeId url = some id → id.length = 11) ∧
    (VideoService.isValidVideoUrl url .YOUTUBE = true ↔
       ∃ id, VideoService.extractYoutubeId url = some id ∧ id.length = 11) := by
  refine ⟨fun id h => extractYoutubeId_length url id h, ?_, ?_⟩
  · intro hv
    unfold VideoService.isValidVideoUrl at hv
    split_ifs at hv with hcond
    obtain ⟨id, hid⟩ := Option.isSome_iff_exists.mp hv
    exact ⟨id, hid, extractYoutubeId_length url id hid⟩
  · rintro ⟨id, hid, -⟩
    have hsome : (VideoService.extractYoutubeId url).isSome = true := by
      rw [hid]; rfl
    unfold VideoService.isValidVideoUrl
    rw [if_neg (extractYoutubeId_isSome_nontrivial url hsome)]
    exact hsome

/-- C10 witness. -/
theorem c10_extract_id_shape_witness :
    ("abcdefghijk".toList).length = 11 ∧
    VideoService.isValidVideoUrl
      "https://www.youtube.com/watch?v=abcdefghijk".toList .YOUTUBE = true :=
  ⟨(c10_extract_id_shape "https://www.youtube.com/watch?v=abcdefghijk".toList).1
     "abcdefghijk".toList (by decide),
   (c10_extract_id_shape "https://www.youtube.com/watch?v=abcdefghijk".toList).2.mpr
     ⟨"abcdefghijk".toList, by decide, by decide⟩⟩
